import Mathlib

/-!
Verification development for the Plan Generation & Load-Guardrail Engine of
the AI-Training-Aid repository (`src/app.py`).

Modelling conventions:

* A Python `SessionPlan` dataclass is a Lean structure with the same fields;
  Python `int` fields become `Int`.
* `sessions_per_week` reaches the engine from a UI slider with range 2–6, so
  it is modelled as `Nat`; Python slicing `templates[:n]` with a nonnegative
  `n` is `List.take n`.
* Python's stable `list.sort(key=...)` is modelled by `List.insertionSort`
  with the relation "day index is at most day index"; insertion sort is a
  stable sort, and any two stable sorts by the same key agree extensionally.
* `int(x)` applied to a Python float truncates toward zero; the guardrail
  computations `int(last_week_load * 1.10)` and `int(load_units * factor)`
  are modelled by exact integer truncated division (`Int.tdiv`).  On the
  tool's input range (loads 0–1000 from the UI, template loads below 100)
  the IEEE-double computation of the source agrees with exact arithmetic;
  all concrete evaluations below were checked against CPython behaviour.
* The OpenAI request, the fenced-code-block stripping, `json.loads` and
  `data.get("sessions", [])` are abstracted into one `outcome` parameter:
  `.error` stands for any exception raised inside the `try` block (all are
  caught by the enclosing `except Exception: return None`), `.ok items` for
  a successfully parsed list of raw session objects.  A raw object is
  modelled by `RawItem` with `Option`-valued fields (`none` = key absent);
  raw values whose use would raise (`.title()` on a non-string, `int(...)`
  on an unparsable value) are covered by the `.error` outcome.
-/

structure SessionPlan where
  day : String
  focus : String
  intensity : String
  duration_min : Int
  load_units : Int
  notes : String
deriving DecidableEq, Repr

instance : Inhabited SessionPlan := ⟨⟨"", "", "", 0, 0, ""⟩⟩

def DAYS_ORDER : List String := ["Mon", "Tue", "Wed", "Thu", "Fri", "Sat", "Sun"]

/-- Python `day_index = {d: i for i, d in enumerate(DAYS_ORDER)}` together with
`day_index.get(day, 99)`: the canonical index of a day, 99 for anything else. -/
def dayIndex (d : String) : Nat :=
  match DAYS_ORDER.findIdx? (· == d) with
  | some i => i
  | none => 99

/-- Sort key relation used by `sessions.sort(key=lambda s: day_index.get(s.day, 99))`. -/
def dayLE (a b : SessionPlan) : Prop := dayIndex a.day ≤ dayIndex b.day

instance : DecidableRel dayLE := fun a b => inferInstanceAs (Decidable (_ ≤ _))

instance : IsTotal SessionPlan dayLE := ⟨fun a b => Nat.le_total _ _⟩

instance : IsTrans SessionPlan dayLE := ⟨fun _ _ _ => Nat.le_trans⟩

/-- Python's stable in-place sort by day index, modelled by stable insertion sort. -/
def sortByDay (l : List SessionPlan) : List SessionPlan := l.insertionSort dayLE

/-- Python `s or default` for strings: the default replaces only the empty string. -/
def pyOr (s default : String) : String := if s = "" then default else s

/-- Python `str.lower()` restricted to the ASCII letters the engine compares
against ("novice", "intermediate", "boxing"). -/
def pyLower (s : String) : String := String.mk (s.data.map Char.toLower)

def boxingNovice0 (contraindications : String) : SessionPlan :=
  { day := "Tue"
    focus := "Boxing basics: stance, guard & straight punches"
    intensity := "Easy–Moderate"
    duration_min := 25
    load_units := 30
    notes := "Warm-up: 5 min skipping or brisk walk.\n" ++
      "Technique: 4 × 2 min shadow boxing (jab–cross, basic guard) with 1 min rest.\n" ++
      "Bag/pillow: 4 × 1 min straight punches, light power.\n" ++
      "Cool-down: 5 min shoulder, wrist and calf stretches.\n" ++
      "Contraindications to watch: " ++ pyOr contraindications "None stated" ++ "." }

def boxingNovice1 (contraindications : String) : SessionPlan :=
  { day := "Thu"
    focus := "Footwork & defence foundations"
    intensity := "Moderate"
    duration_min := 25
    load_units := 35
    notes := "Warm-up: 5 min dynamic mobility (hips, ankles, shoulders).\n" ++
      "Main: 4 × 2 min shadow boxing with basic steps (forward/back/side) and guard up.\n" ++
      "Defence drill: 3 × 2 min slip/duck movements in front of mirror or wall.\n" ++
      "Core: 3 × 20 s plank, 20 s rest.\n" ++
      "Cool-down: 5 min relaxed walk + breathing.\n" ++
      "Avoid any movements that aggravate: " ++ pyOr contraindications "None" ++ "." }

def boxingNovice2 (contraindications : String) : SessionPlan :=
  { day := "Sat"
    focus := "Conditioning: simple intervals + technique"
    intensity := "Moderate"
    duration_min := 30
    load_units := 40
    notes := "Warm-up: 5 min skipping or light jog.\n" ++
      "Intervals: 6 × 30 s fast straight punches (shadow or bag) + 60 s easy movement.\n" ++
      "Technique: 4 × 2 min shadow boxing, mixing punches with basic defence.\n" ++
      "Cool-down: 5–8 min stretch (hips, hamstrings, shoulders).\n" ++
      "Stop if pain or dizziness occurs, especially given: " ++
      pyOr contraindications "no stated issues" ++ "." }

def boxingNoviceTemplates (contraindications : String) : List SessionPlan :=
  [boxingNovice0 contraindications, boxingNovice1 contraindications,
   boxingNovice2 contraindications]

def boxingInter0 (contraindications : String) : SessionPlan :=
  { day := "Mon"
    focus := "Technical combinations & footwork"
    intensity := "Moderate–Hard"
    duration_min := 35
    load_units := 55
    notes := "Warm-up: 5 min skipping + joint mobility.\n" ++
      "Combos on bag/shadow: 5 × 3 min (jab–cross–hook, jab–cross–cross–hook), 60–90 s rest.\n" ++
      "Footwork rounds: 3 × 2 min circling and cutting the ring.\n" ++
      "Cool-down: 5 min light walk + stretching.\n" ++
      "Modify combinations if they aggravate: " ++ pyOr contraindications "None" ++ "." }

def boxingInter1 (contraindications : String) : SessionPlan :=
  { day := "Wed"
    focus := "Defence, counters & core"
    intensity := "Moderate"
    duration_min := 35
    load_units := 50
    notes := "Warm-up: 5 min dynamic warm-up.\n" ++
      "Defence rounds: 4 × 3 min slips, ducks, parries, then counter 1–2 punches.\n" ++
      "Shadow or bag work: 3 × 2 min focusing on clean form at moderate pace.\n" ++
      "Core circuit: 3 rounds (20 s plank, 10 sit-ups, 10 Russian twists), 60 s rest.\n" ++
      "Respect pain or previous issues: " ++ pyOr contraindications "None" ++ "." }

def boxingInter2 (contraindications : String) : SessionPlan :=
  { day := "Fri"
    focus := "Conditioning: intervals & power focus"
    intensity := "Hard"
    duration_min := 35
    load_units := 60
    notes := "Warm-up: 5–7 min.\n" ++
      "Intervals: 8 × 30 s high-output bag punching (all punches) + 60 s light movement.\n" ++
      "Power focus: 3 × 2 min heavier single shots and 2–3 punch combinations.\n" ++
      "Cool-down: 5–8 min stretching & breathing.\n" ++
      "Keep technique tidy; reduce power if form breaks under fatigue." }

def boxingIntermediateTemplates (contraindications : String) : List SessionPlan :=
  [boxingInter0 contraindications, boxingInter1 contraindications,
   boxingInter2 contraindications]

def boxingAdv0 (contraindications : String) : SessionPlan :=
  { day := "Tue"
    focus := "High-complexity combinations & movement"
    intensity := "Hard"
    duration_min := 40
    load_units := 70
    notes := "Warm-up: 8 min mixed skipping + mobility.\n" ++
      "Complex combos: 5 × 3 min on bag/pads, mixing level changes and angles.\n" ++
      "Footwork intensity: 3 × 2 min high-tempo ring movement.\n" ++
      "Cool-down: 5–8 min mobility & stretch.\n" ++
      "Monitor joints and previous issues: " ++ pyOr contraindications "None declared" ++ "." }

def boxingAdv1 (contraindications : String) : SessionPlan :=
  { day := "Thu"
    focus := "Defence, counters & conditioning mixed"
    intensity := "Hard"
    duration_min := 40
    load_units := 70
    notes := "Warm-up: 6–8 min.\n" ++
      "Defence & counter rounds: 4 × 3 min with slips, blocks and quick counters.\n" ++
      "Conditioning: 6 × 30 s punch sprints + 60 s active rest.\n" ++
      "Core & stability: 3 × 30 s plank variations.\n" ++
      "Cool-down as normal; adjust if any warning signs." }

def boxingAdv2 (contraindications : String) : SessionPlan :=
  { day := "Sat"
    focus := "Mixed technical conditioning (no full sparring)"
    intensity := "Moderate–Hard"
    duration_min := 40
    load_units := 65
    notes := "Warm-up: 6–8 min.\n" ++
      "Shadow rounds: 3 × 3 min visualising an opponent.\n" ++
      "Bag rounds: 4 × 3 min mixing power and volume.\n" ++
      "Cool-down: 5–8 min.\n" ++
      "If usually sparring, this tool deliberately avoids contact to reduce risk." }

def boxingAdvancedTemplates (contraindications : String) : List SessionPlan :=
  [boxingAdv0 contraindications, boxingAdv1 contraindications,
   boxingAdv2 contraindications]

/-- The per-level catalog chosen by `generate_boxing_sessions_template` after
`level = level.lower()`: novice and intermediate by name, anything else advanced. -/
def boxingCatalog (level contraindications : String) : List SessionPlan :=
  if pyLower level = "novice" then boxingNoviceTemplates contraindications
  else if pyLower level = "intermediate" then boxingIntermediateTemplates contraindications
  else boxingAdvancedTemplates contraindications

/-- `generate_boxing_sessions_template` from `src/app.py`: truncate the catalog to
the requested count, or pad by repeatedly appending catalog entry 0, then sort
by day index. -/
def generate_boxing_sessions_template
    (level : String) (sessions_per_week : Nat) (contraindications : String) :
    List SessionPlan :=
  let templates := boxingCatalog level contraindications
  let sessions :=
    if sessions_per_week ≤ templates.length then templates.take sessions_per_week
    else templates ++ List.replicate (sessions_per_week - templates.length) (templates.headD default)
  sortByDay sessions

/-- `generate_generic_sessions_template` from `src/app.py`: synthetic sessions on
days `i*2 mod 7`, returned in construction order (this function does not sort). -/
def generate_generic_sessions_template
    (sport : String) (level : String) (sessions_per_week : Nat) (contraindications : String) :
    List SessionPlan :=
  (List.range sessions_per_week).map (fun i =>
    { day := DAYS_ORDER.getD ((i * 2) % DAYS_ORDER.length) ""
      focus := sport ++ " conditioning session " ++ toString (i + 1)
      intensity := "Moderate"
      duration_min := 30
      load_units := 40
      notes := "Warm-up: 5–10 min easy movement.\n" ++
        "Main: intervals or tempo work relevant to the sport.\n" ++
        "Cool-down: 5–10 min mobility & stretching.\n" ++
        "Contraindications to respect: " ++ pyOr contraindications "None stated" ++ "." })

/-- A raw item from the parsed external response: every key may be absent, no
field is trusted.  `load_units` is present in the model to record that the
sanitizer never reads it (the source never accesses `item["load_units"]`). -/
structure RawItem where
  day : Option String
  focus : Option String
  intensity : Option String
  duration_min : Option Int
  load_units : Option Int
  notes : Option String
deriving DecidableEq, Repr

/-- Python `str.title()` restricted to the ASCII letters the engine ever
compares against: the first letter of each alphabetic run is uppercased, the
rest lowercased. -/
def pyTitle (s : String) : String :=
  String.mk (s.data.foldl
    (fun (acc : List Char × Bool) c =>
      if c.isAlpha then
        (acc.1 ++ [if acc.2 then c.toLower else c.toUpper], true)
      else
        (acc.1 ++ [c], false))
    ([], false)).1

/-- The inner `for offset in range(7)` scan of `generate_sessions_ai`: starting
at `base`, the first cyclically following canonical day not yet used.  Returns
`none` when all seven days are used (the Python loop then falls through with
no assignment). -/
def resolveDay (base : Nat) (used : List String) : Option String :=
  ((List.range 7).map (fun offset => DAYS_ORDER.getD ((base + offset) % DAYS_ORDER.length) "")).find?
    (fun candidate => !(decide (candidate ∈ used)))

/-- Day handling for one raw item: default the day to "Mon" when absent or
non-canonical, then resolve to the first cyclically following unused day and
record it as used; when all seven days are used the (defaulted) day is kept
and the used set is unchanged. -/
def chooseDay (rawDay : Option String) (used : List String) : String × List String :=
  let day0 := rawDay.getD "Mon"
  let day1 := if day0 ∈ DAYS_ORDER then day0 else "Mon"
  match resolveDay (dayIndex day1) used with
  | some d => (d, d :: used)
  | none => (day1, used)

/-- Intensity normalization of the sanitizer: title-case, then default to
"Moderate" outside the allowed set. -/
def normalizeIntensity (raw : String) : String :=
  let t := pyTitle raw
  if t = "Easy" ∨ t = "Moderate" ∨ t = "Hard" then t else "Moderate"

/-- Intensity factor `{"Easy": 1, "Moderate": 2, "Hard": 3}.get(intensity, 2)`. -/
def intensityFactor (intensity : String) : Int :=
  if intensity = "Easy" then 1
  else if intensity = "Moderate" then 2
  else if intensity = "Hard" then 3
  else 2

/-- The fixed safety postscript appended to every AI-produced session's notes. -/
def safetyPostscript (contraindications : String) : String :=
  "\n\nIf anything feels sharp, unusual or worrying, stop or reduce intensity. " ++
  "Context to remember: " ++ pyOr contraindications "no specific issues noted" ++ "."

/-- The per-item sanitization loop of `generate_sessions_ai` (`src/app.py`
lines 334–376): stop once the requested count is reached (modelled by the
remaining count), default and deduplicate the day, default the focus,
normalize the intensity, clamp the duration to [20, 60], recompute the load,
and append the safety postscript. -/
def sanitizeItems (sport contraindications : String) :
    Nat → List RawItem → List String → List SessionPlan
  | _, [], _ => []
  | 0, _ :: _, _ => []
  | remaining + 1, item :: rest, used =>
    let result := chooseDay item.day used
    let duration := max 20 (min 60 (item.duration_min.getD 30))
    let intensity := normalizeIntensity (item.intensity.getD "Moderate")
    { day := result.1
      focus := item.focus.getD (sport ++ " session")
      intensity := intensity
      duration_min := duration
      load_units := intensityFactor intensity * duration
      notes := item.notes.getD "" ++ safetyPostscript contraindications } ::
      sanitizeItems sport contraindications remaining rest result.2

/-- `generate_sessions_ai` from `src/app.py`.  `available` models
`OPENAI_AVAILABLE`; `outcome` abstracts the request/strip/parse stage (see the
header comment): `.error` is any exception inside the `try` block, caught by
`except Exception: return None`.  `level` and `last_week_load` only shape the
prompt text in the source and do not influence the returned sessions. -/
def generate_sessions_ai
    (available : Bool) (outcome : Except Unit (List RawItem))
    (sport : String) (level : String) (sessions_per_week : Nat)
    (last_week_load : Int) (contraindications : String) :
    Option (List SessionPlan) :=
  if !available then none
  else
    match outcome with
    | .error _ => none
    | .ok items =>
      let sessions := sanitizeItems sport contraindications sessions_per_week items []
      if sessions.isEmpty then none else some (sortByDay sessions)

/-- The `allowed_max` ceiling of the guardrail:
`max(int(last_week_load * 1.10), last_week_load + 20)`, with the float
truncation modelled by exact truncated division. -/
def allowedMax (last_week_load : Int) : Int :=
  max ((11 * last_week_load).tdiv 10) (last_week_load + 20)

/-- `current_total = sum(s.load_units for s in sessions)`. -/
def currentTotal (sessions : List SessionPlan) : Int :=
  (sessions.map (·.load_units)).sum

/-- The informational note appended to the first session when the plan is
within the allowed band. -/
def loadCheckNote (current_total last_week_load : Int) : String :=
  "\n\nLoad check: planned weekly load " ++ toString current_total ++
  " vs last week " ++ toString last_week_load ++ " (within approximately +10% rule)."

/-- The explanatory note appended to every session when scaling is applied. -/
def guardNote (last_week_load allowed_max : Int) : String :=
  "\n\nLoad guardrail applied: weekly load reduced to stay within +10% of last week (" ++
  toString last_week_load ++ " → target ≤ " ++ toString allowed_max ++ ")."

/-- One iteration of the scaling loop:
`s.load_units = max(20, int(s.load_units * factor))` (float truncation
modelled by exact truncated division by `current_total`) plus the note. -/
def scaleSession (allowed_max current_total last_week_load : Int) (s : SessionPlan) :
    SessionPlan :=
  { s with
    load_units := max 20 ((s.load_units * allowed_max).tdiv current_total)
    notes := s.notes ++ guardNote last_week_load allowed_max }

/-- `apply_weekly_load_guardrail` from `src/app.py` (lines 389–414), on
alias-free session lists (the aliased case is modelled separately below).
The access `sessions[0]` raises `IndexError` on an empty list, modelled by
`none`. -/
def apply_weekly_load_guardrail (sessions : List SessionPlan) (last_week_load : Int) :
    Option (List SessionPlan) :=
  if last_week_load ≤ 0 then some sessions
  else
    let current_total := currentTotal sessions
    let allowed_max := allowedMax last_week_load
    if current_total ≤ allowed_max then
      match sessions with
      | [] => none
      | s :: rest =>
        some ({ s with notes := s.notes ++ loadCheckNote current_total last_week_load } :: rest)
    else
      some (sessions.map (scaleSession allowed_max current_total last_week_load))

/-- `generate_week_plan` from `src/app.py`: try the AI path, fall back to the
boxing or generic template by sport name, then apply the guardrail.  The
Python truthiness test `if ai_sessions:` falls through to the templates both
for `None` and for an empty list. -/
def generate_week_plan
    (available : Bool) (outcome : Except Unit (List RawItem))
    (sport : String) (level : String) (sessions_per_week : Nat)
    (last_week_load : Int) (contraindications : String) :
    Option (List SessionPlan) :=
  let ai_sessions := generate_sessions_ai available outcome sport level
    sessions_per_week last_week_load contraindications
  let sessions :=
    match ai_sessions with
    | some (s :: rest) => s :: rest
    | _ =>
      if pyLower sport = "boxing" then
        generate_boxing_sessions_template level sessions_per_week contraindications
      else
        generate_generic_sessions_template sport level sessions_per_week contraindications
  apply_weekly_load_guardrail sessions last_week_load

instance : Inhabited RawItem := ⟨⟨none, none, none, none, none, none⟩⟩

/-!
Aliased model of the boxing template path (for the padding/guardrail
interaction).  The value-level functions above are faithful for alias-free
lists; the Python padding loop `sessions.append(templates[0])`, however,
appends the same mutable object repeatedly, and the guardrail then mutates
through each list slot in order.  This is modelled by a store
(`Nat → SessionPlan`, reference `r` denoting catalog entry `r`) together with
a list of references.
-/

/-- Store update at a single reference. -/
def updateStore (store : Nat → SessionPlan) (r : Nat) (v : SessionPlan) :
    Nat → SessionPlan :=
  fun x => if x = r then v else store x

/-- Reference structure of the boxing selector's pre-sort list:
`templates[:n]` keeps distinct objects, while the padding loop appends the
reference of `templates[0]` repeatedly. -/
def boxingRefs (sessions_per_week : Nat) : List Nat :=
  if sessions_per_week ≤ 3 then (List.range 3).take sessions_per_week
  else List.range 3 ++ List.replicate (sessions_per_week - 3) 0

/-- The store backing the boxing references. -/
def boxingStore (level contraindications : String) : Nat → SessionPlan :=
  fun r => (boxingCatalog level contraindications).getD r default

/-- Day-order relation lifted to references. -/
def refDayLE (store : Nat → SessionPlan) (a b : Nat) : Prop :=
  dayIndex (store a).day ≤ dayIndex (store b).day

instance (store : Nat → SessionPlan) : DecidableRel (refDayLE store) :=
  fun _ _ => inferInstanceAs (Decidable (_ ≤ _))

/-- The day sort acting on references (the Python sort moves object
references, not copies). -/
def sortRefsByDay (store : Nat → SessionPlan) (refs : List Nat) : List Nat :=
  refs.insertionSort (refDayLE store)

/-- References of the final (sorted) boxing template plan. -/
def boxingPlanRefs (level contraindications : String) (n : Nat) : List Nat :=
  sortRefsByDay (boxingStore level contraindications) (boxingRefs n)

/-- `sum(s.load_units for s in sessions)` read through the references. -/
def currentTotalRefs (store : Nat → SessionPlan) (refs : List Nat) : Int :=
  (refs.map (fun r => (store r).load_units)).sum

/-- `apply_weekly_load_guardrail` on the reference/store representation: the
scaling loop reads and writes through each reference in order, so an object
occurring several times in the list is rescaled and annotated once per
occurrence.  As before, `sessions[0]` on an empty list is `none`. -/
def apply_weekly_load_guardrail_refs (store : Nat → SessionPlan) (refs : List Nat)
    (last_week_load : Int) : Option ((Nat → SessionPlan) × List Nat) :=
  if last_week_load ≤ 0 then some (store, refs)
  else
    let current_total := currentTotalRefs store refs
    let allowed_max := allowedMax last_week_load
    if current_total ≤ allowed_max then
      match refs with
      | [] => none
      | r :: _ =>
        some (updateStore store r
          { store r with notes := (store r).notes ++ loadCheckNote current_total last_week_load },
          refs)
    else
      some (refs.foldl
        (fun st r => updateStore st r (scaleSession allowed_max current_total last_week_load (st r)))
        store, refs)

/-- A base notes string followed by `k` appended copies of `note`. -/
def notesAfter (note base : String) : Nat → String
  | 0 => base
  | k + 1 => notesAfter note base k ++ note

/-- A minimal session value used as concrete input in closed instances below. -/
def sampleSession (d : String) (load : Int) : SessionPlan :=
  { day := d, focus := "conditioning", intensity := "Moderate",
    duration_min := 30, load_units := load, notes := "" }

/-- Raw response items with duplicate days and out-of-range fields. -/
def sampleRawItems : List RawItem :=
  [ { day := some "Tue", focus := none, intensity := some "hARD",
      duration_min := some 999, load_units := some 7, notes := none },
    { day := some "Tue", focus := some "tempo", intensity := some "extreme",
      duration_min := some 5, load_units := none, notes := some "n" },
    { day := some "Funday", focus := none, intensity := none,
      duration_min := none, load_units := none, notes := none } ]

/-! ### General lemmas about the day sort -/

lemma orderedInsert_append_replicate {α : Type} (r : α → α → Prop) [DecidableRel r]
    (x a : α) (h : ¬ r x a) :
    ∀ (m : Nat) (t : List α),
      List.orderedInsert r x (List.replicate m a ++ t) =
        List.replicate m a ++ List.orderedInsert r x t
  | 0, _ => rfl
  | m + 1, t => by
    show List.orderedInsert r x (a :: (List.replicate m a ++ t)) =
      a :: (List.replicate m a ++ List.orderedInsert r x t)
    simp only [List.orderedInsert, if_neg h]
    rw [orderedInsert_append_replicate r x a h m t]

lemma orderedInsert_replicate {α : Type} (r : α → α → Prop) [DecidableRel r]
    (x a : α) (h : ¬ r x a) :
    ∀ m, List.orderedInsert r x (List.replicate m a) = List.replicate m a ++ [x]
  | 0 => rfl
  | m + 1 => by
    show List.orderedInsert r x (a :: List.replicate m a) =
      a :: (List.replicate m a ++ [x])
    simp only [List.orderedInsert, if_neg h]
    rw [orderedInsert_replicate r x a h m]

lemma insertionSort_replicate {α : Type} (r : α → α → Prop) [DecidableRel r]
    (a : α) (h : r a a) :
    ∀ m, List.insertionSort r (List.replicate m a) = List.replicate m a
  | 0 => rfl
  | m + 1 => by
    show List.orderedInsert r a (List.insertionSort r (List.replicate m a)) =
      List.replicate (m + 1) a
    rw [insertionSort_replicate r a h m]
    cases m with
    | zero => rfl
    | succ m' =>
      show List.orderedInsert r a (a :: List.replicate m' a) =
        a :: a :: List.replicate m' a
      simp only [List.orderedInsert, if_pos h]

/-- Closed form of the stable day sort on a three-entry catalog padded with
copies of its first entry, when the catalog entries are in strictly
increasing day order. -/
lemma insertionSort_pad {α : Type} (r : α → α → Prop) [DecidableRel r]
    (a b c : α) (m : Nat)
    (haa : r a a) (hab : r a b) (hbc : r b c)
    (hba : ¬ r b a) (hca : ¬ r c a) :
    List.insertionSort r (a :: b :: c :: List.replicate m a) =
      List.replicate (m + 1) a ++ [b, c] := by
  show List.orderedInsert r a (List.orderedInsert r b (List.orderedInsert r c
      (List.insertionSort r (List.replicate m a)))) =
    List.replicate (m + 1) a ++ [b, c]
  rw [insertionSort_replicate r a haa m, orderedInsert_replicate r c a hca m,
    orderedInsert_append_replicate r b a hba m [c]]
  have hb : List.orderedInsert r b [c] = [b, c] := by
    simp only [List.orderedInsert, if_pos hbc]
  rw [hb]
  cases m with
  | zero =>
    show List.orderedInsert r a [b, c] = [a, b, c]
    simp only [List.orderedInsert, if_pos hab]
  | succ m' =>
    show List.orderedInsert r a (a :: (List.replicate m' a ++ [b, c])) =
      a :: a :: (List.replicate m' a ++ [b, c])
    simp only [List.orderedInsert, if_pos haa]

/-! ### Facts about the day table -/

lemma dayIndex_getD_range : ∀ k ∈ List.range 7, dayIndex (DAYS_ORDER.getD k "") = k := by
  decide

lemma daysGetD_mem : ∀ k ∈ List.range 7, DAYS_ORDER.getD k "" ∈ DAYS_ORDER := by
  decide

lemma daysGetD_surj : ∀ d ∈ DAYS_ORDER, ∃ i ∈ List.range 7, DAYS_ORDER.getD i "" = d := by
  decide

lemma dayIndex_lt_of_mem : ∀ d ∈ DAYS_ORDER, dayIndex d < 7 := by decide

lemma days_nodup : DAYS_ORDER.Nodup := by decide

/-! ### Template selector (claims C6, C7, C8) -/

lemma boxingCatalog_length (level contraindications : String) :
    (boxingCatalog level contraindications).length = 3 := by
  unfold boxingCatalog
  split
  · rfl
  split
  · rfl
  · rfl

lemma sortByDay_take_novice (contra : String) (n : Nat) (hn : n ≤ 3) :
    sortByDay ((boxingNoviceTemplates contra).take n) = (boxingNoviceTemplates contra).take n := by
  interval_cases n <;> rfl

lemma sortByDay_take_inter (contra : String) (n : Nat) (hn : n ≤ 3) :
    sortByDay ((boxingIntermediateTemplates contra).take n) =
      (boxingIntermediateTemplates contra).take n := by
  interval_cases n <;> rfl

lemma sortByDay_take_adv (contra : String) (n : Nat) (hn : n ≤ 3) :
    sortByDay ((boxingAdvancedTemplates contra).take n) =
      (boxingAdvancedTemplates contra).take n := by
  interval_cases n <;> rfl

/-- C7: for a requested count at most 3, the boxing selector returns exactly
`count` records forming a prefix of the level's catalog, sorted by the
canonical day order. -/
theorem C7_boxing_template_prefix (level : String) (n : Nat) (contra : String)
    (hn : n ≤ 3) :
    generate_boxing_sessions_template level n contra = (boxingCatalog level contra).take n ∧
    (generate_boxing_sessions_template level n contra).length = n ∧
    List.Sorted dayLE (generate_boxing_sessions_template level n contra) := by
  have hlen3 := boxingCatalog_length level contra
  have heq : generate_boxing_sessions_template level n contra =
      sortByDay ((boxingCatalog level contra).take n) := by
    simp only [generate_boxing_sessions_template]
    rw [hlen3, if_pos hn]
  have heq2 : sortByDay ((boxingCatalog level contra).take n) =
      (boxingCatalog level contra).take n := by
    unfold boxingCatalog
    split
    · exact sortByDay_take_novice contra n hn
    split
    · exact sortByDay_take_inter contra n hn
    · exact sortByDay_take_adv contra n hn
  refine ⟨heq.trans heq2, ?_, ?_⟩
  · rw [heq.trans heq2, List.length_take, hlen3]
    omega
  · rw [heq]
    exact List.sorted_insertionSort dayLE _

lemma boxing_pad_closed (level contra : String) (t0 t1 t2 : SessionPlan) (n : Nat)
    (hn : 3 < n) (hcat : boxingCatalog level contra = [t0, t1, t2])
    (h00 : dayLE t0 t0) (h01 : dayLE t0 t1) (h12 : dayLE t1 t2)
    (h10 : ¬ dayLE t1 t0) (h20 : ¬ dayLE t2 t0) :
    generate_boxing_sessions_template level n contra =
      List.replicate (n - 2) t0 ++ [t1, t2] := by
  simp only [generate_boxing_sessions_template]
  rw [hcat]
  rw [if_neg (by simp only [List.length_cons, List.length_nil]; omega)]
  show sortByDay (t0 :: t1 :: t2 :: List.replicate (n - 3) t0) = _
  unfold sortByDay
  rw [insertionSort_pad dayLE t0 t1 t2 (n - 3) h00 h01 h12 h10 h20]
  rw [show n - 3 + 1 = n - 2 from by omega]

lemma boxingCatalog_entries (level contra : String) :
    ∃ t0 t1 t2, boxingCatalog level contra = [t0, t1, t2] ∧
      dayLE t0 t0 ∧ dayLE t0 t1 ∧ dayLE t1 t2 ∧ ¬ dayLE t1 t0 ∧ ¬ dayLE t2 t0 := by
  unfold boxingCatalog
  split
  · refine ⟨_, _, _, rfl, ?_, ?_, ?_, ?_, ?_⟩
    · show dayIndex "Tue" ≤ dayIndex "Tue"; decide
    · show dayIndex "Tue" ≤ dayIndex "Thu"; decide
    · show dayIndex "Thu" ≤ dayIndex "Sat"; decide
    · show ¬ (dayIndex "Thu" ≤ dayIndex "Tue"); decide
    · show ¬ (dayIndex "Sat" ≤ dayIndex "Tue"); decide
  split
  · refine ⟨_, _, _, rfl, ?_, ?_, ?_, ?_, ?_⟩
    · show dayIndex "Mon" ≤ dayIndex "Mon"; decide
    · show dayIndex "Mon" ≤ dayIndex "Wed"; decide
    · show dayIndex "Wed" ≤ dayIndex "Fri"; decide
    · show ¬ (dayIndex "Wed" ≤ dayIndex "Mon"); decide
    · show ¬ (dayIndex "Fri" ≤ dayIndex "Mon"); decide
  · refine ⟨_, _, _, rfl, ?_, ?_, ?_, ?_, ?_⟩
    · show dayIndex "Tue" ≤ dayIndex "Tue"; decide
    · show dayIndex "Tue" ≤ dayIndex "Thu"; decide
    · show dayIndex "Thu" ≤ dayIndex "Sat"; decide
    · show ¬ (dayIndex "Thu" ≤ dayIndex "Tue"); decide
    · show ¬ (dayIndex "Sat" ≤ dayIndex "Tue"); decide

/-- C6 (amended): for count > 3 the boxing selector returns exactly `count`
records, namely the catalog plus `count - 3` exact duplicates of catalog
entry 0 produced by repeated appending before the day sort; after the sort
the duplicates occupy the first `count - 2` positions (entry 0 has the
earliest day in every catalog) and the last two entries are catalog entries
1 and 2. -/
theorem C6_boxing_template_padding (level contra : String) (n : Nat) (hn : 3 < n) :
    (generate_boxing_sessions_template level n contra).length = n ∧
    generate_boxing_sessions_template level n contra =
      List.replicate (n - 2) ((boxingCatalog level contra).getD 0 default) ++
        [(boxingCatalog level contra).getD 1 default,
         (boxingCatalog level contra).getD 2 default] ∧
    generate_boxing_sessions_template level n contra =
      sortByDay (boxingCatalog level contra ++
        List.replicate (n - 3) ((boxingCatalog level contra).getD 0 default)) := by
  obtain ⟨t0, t1, t2, hcat, h00, h01, h12, h10, h20⟩ := boxingCatalog_entries level contra
  have hpad := boxing_pad_closed level contra t0 t1 t2 n hn hcat h00 h01 h12 h10 h20
  refine ⟨?_, ?_, ?_⟩
  · rw [hpad]
    simp only [List.length_append, List.length_replicate, List.length_cons, List.length_nil]
    omega
  · rw [hpad, hcat]
    rfl
  · rw [hpad, hcat]
    show _ = sortByDay (t0 :: t1 :: t2 :: List.replicate (n - 3) t0)
    unfold sortByDay
    rw [insertionSort_pad dayLE t0 t1 t2 (n - 3) h00 h01 h12 h10 h20]
    rw [show n - 3 + 1 = n - 2 from by omega]

/-- C6 counterexample: for the novice catalog and count 5 the returned list is
`[e0, e0, e0, e1, e2]`, so the entry at index 4 (beyond index 3) is the
Saturday conditioning session, not a duplicate of catalog entry 0 — the claim
as stated fails because the duplicates are moved by the final day sort. -/
theorem C6_counterexample :
    ((generate_boxing_sessions_template "Novice" 5 "").getD 4 default).focus ≠
      ((boxingCatalog "Novice" "").getD 0 default).focus := by
  decide

/-- Closed instance of the amended C6 at novice level and count 5. -/
theorem C6_witness :
    (generate_boxing_sessions_template "Novice" 5 "").length = 5 ∧
    generate_boxing_sessions_template "Novice" 5 "" =
      List.replicate 3 ((boxingCatalog "Novice" "").getD 0 default) ++
        [(boxingCatalog "Novice" "").getD 1 default,
         (boxingCatalog "Novice" "").getD 2 default] := by
  have h := C6_boxing_template_padding "Novice" "" 5 (by decide)
  exact ⟨h.1, h.2.1⟩

/-- C8 (amended): the boxing selector's final list is always sorted by the
fixed day index (any non-canonical day would sort last at index 99, ties
stable under the stable sort model); the generic generator assigns day
`i*2 mod 7` to the session at index `i` and returns the list in construction
order without sorting, so its output is day-sorted precisely while the
requested count stays at most 4. -/
theorem C8_template_day_order :
    (∀ (level : String) (n : Nat) (contra : String),
      List.Sorted dayLE (generate_boxing_sessions_template level n contra)) ∧
    (∀ (sport level : String) (n : Nat) (contra : String) (i : Nat), i < n →
      ((generate_generic_sessions_template sport level n contra).getD i default).day =
        DAYS_ORDER.getD ((i * 2) % 7) "") ∧
    (∀ (sport level : String) (n : Nat) (contra : String), n ≤ 4 →
      List.Sorted dayLE (generate_generic_sessions_template sport level n contra)) := by
  refine ⟨?_, ?_, ?_⟩
  · intro level n contra
    simp only [generate_boxing_sessions_template]
    exact List.sorted_insertionSort dayLE _
  · intro sport level n contra i hi
    have h1 : (List.range n).get? i = some i := List.get?_range hi
    simp only [generate_generic_sessions_template, List.getD, List.get?_map, h1,
      Option.map_some', Option.getD_some]
    rfl
  · intro sport level n contra hn
    show List.Pairwise dayLE _
    unfold generate_generic_sessions_template
    rw [List.pairwise_map]
    refine (List.pairwise_lt_range n).imp_of_mem ?_
    intro a b ha hb hab
    have ha4 : a < n := List.mem_range.mp ha
    have hb4 : b < n := List.mem_range.mp hb
    show dayIndex (DAYS_ORDER.getD ((a * 2) % DAYS_ORDER.length) "") ≤
      dayIndex (DAYS_ORDER.getD ((b * 2) % DAYS_ORDER.length) "")
    have hlen : DAYS_ORDER.length = 7 := rfl
    rw [hlen]
    rw [dayIndex_getD_range ((a * 2) % 7) (List.mem_range.mpr (by omega)),
      dayIndex_getD_range ((b * 2) % 7) (List.mem_range.mpr (by omega))]
    rw [Nat.mod_eq_of_lt (show a * 2 < 7 by omega),
      Nat.mod_eq_of_lt (show b * 2 < 7 by omega)]
    omega

/-- C8 counterexample: for count 5 the generic generator's days are
Mon, Wed, Fri, Sun, Tue — the fourth entry (Sun, index 6) precedes the fifth
(Tue, index 1), so the final list of the generic template path is not sorted
by day index. -/
theorem C8_counterexample :
    ¬ List.Sorted dayLE (generate_generic_sessions_template "Running" "Novice" 5 "") := by
  decide

/-- Closed instance of the amended C8. -/
theorem C8_witness :
    ((generate_generic_sessions_template "Running" "Novice" 3 "").getD 1 default).day =
      DAYS_ORDER.getD 2 "" ∧
    List.Sorted dayLE (generate_generic_sessions_template "Running" "Novice" 4 "") :=
  ⟨C8_template_day_order.2.1 "Running" "Novice" 3 "" 1 (by decide),
   C8_template_day_order.2.2 "Running" "Novice" 4 "" (by decide)⟩

/-! ### Load guardrail (claims C1, C5, C9) -/

lemma allowedMax_pos (lwl : Int) (h : 0 < lwl) : 0 < allowedMax lwl := by
  have h2 : lwl + 20 ≤ allowedMax lwl := le_max_right _ _
  omega

lemma scaleSession_load_ge (am ct lwl : Int) (s : SessionPlan) :
    20 ≤ (scaleSession am ct lwl s).load_units :=
  le_max_left _ _

lemma scaleSession_load_le (am ct lwl : Int) (s : SessionPlan)
    (h20 : 20 ≤ s.load_units) (ham : 0 < am) (hct : am < ct) :
    (scaleSession am ct lwl s).load_units ≤ s.load_units := by
  show max 20 ((s.load_units * am).tdiv ct) ≤ s.load_units
  have hnn : (0 : Int) ≤ s.load_units * am := mul_nonneg (by omega) (le_of_lt ham)
  rw [Int.tdiv_eq_ediv hnn (by omega)]
  have hlt : s.load_units * am / ct < s.load_units :=
    Int.ediv_lt_of_lt_mul (by omega) (mul_lt_mul_of_pos_left hct (by omega))
  omega

lemma scaleSession_load_lt (am ct lwl : Int) (s : SessionPlan)
    (h21 : 21 ≤ s.load_units) (ham : 0 < am) (hct : am < ct) :
    (scaleSession am ct lwl s).load_units < s.load_units := by
  show max 20 ((s.load_units * am).tdiv ct) < s.load_units
  have hnn : (0 : Int) ≤ s.load_units * am := mul_nonneg (by omega) (le_of_lt ham)
  rw [Int.tdiv_eq_ediv hnn (by omega)]
  have hlt : s.load_units * am / ct < s.load_units :=
    Int.ediv_lt_of_lt_mul (by omega) (mul_lt_mul_of_pos_left hct (by omega))
  omega

lemma sum_map_lt_of_exists {α : Type} (f g : α → Int) :
    ∀ (l : List α), (∀ x ∈ l, f x ≤ g x) → (∃ x ∈ l, f x < g x) →
      (l.map f).sum < (l.map g).sum
  | [], _, hex => by simp at hex
  | a :: t, hle, hex => by
    simp only [List.map_cons, List.sum_cons]
    rcases hex with ⟨x, hx, hlt⟩
    rcases List.mem_cons.mp hx with rfl | hxt
    · exact add_lt_add_of_lt_of_le hlt
        (List.sum_le_sum (fun y hy => hle y (List.mem_cons_of_mem _ hy)))
    · exact add_lt_add_of_le_of_lt (hle a (List.mem_cons_self a t))
        (sum_map_lt_of_exists f g t (fun y hy => hle y (List.mem_cons_of_mem _ hy))
          ⟨x, hxt, hlt⟩)

/-- C1 (amended): when prior load > 0 and the current total exceeds
`allowed_max = max(trunc(prior × 1.10), prior + 20)`, the guardrail sets every
session's load to `max(20, trunc(old × allowed_max / current_total))`
(the source truncates via `int(...)`, it does not round) and appends the
guardrail note to every session; the total never grows as long as every old
load is at least 20, and shrinks strictly if some old load is at least 21
(with loads below 20 the 20-unit floor can make the total grow).  For the
boxing novice template loads [30, 35, 40] with prior load 50, allowed_max is
70 and the new loads are [20, 23, 26]. -/
theorem C1_guardrail_scaling (sessions : List SessionPlan) (lwl : Int)
    (hpos : 0 < lwl) (hover : allowedMax lwl < currentTotal sessions) :
    (apply_weekly_load_guardrail sessions lwl =
      some (sessions.map (scaleSession (allowedMax lwl) (currentTotal sessions) lwl)) ∧
     ((∀ s ∈ sessions, 20 ≤ s.load_units) →
       currentTotal (sessions.map
           (scaleSession (allowedMax lwl) (currentTotal sessions) lwl)) ≤
         currentTotal sessions ∧
       ((∃ s ∈ sessions, 21 ≤ s.load_units) →
         currentTotal (sessions.map
             (scaleSession (allowedMax lwl) (currentTotal sessions) lwl)) <
           currentTotal sessions))) ∧
    (allowedMax 50 = 70 ∧
     (apply_weekly_load_guardrail (generate_boxing_sessions_template "Novice" 3 "") 50).map
         (List.map SessionPlan.load_units) = some [20, 23, 26]) := by
  have ham := allowedMax_pos lwl hpos
  constructor
  · constructor
    · simp only [apply_weekly_load_guardrail]
      rw [if_neg (by omega), if_neg (by omega)]
    · intro h20
      have hle : ∀ s ∈ sessions,
          (scaleSession (allowedMax lwl) (currentTotal sessions) lwl s).load_units ≤
            s.load_units :=
        fun s hs => scaleSession_load_le _ _ _ s (h20 s hs) ham hover
      constructor
      · unfold currentTotal
        rw [List.map_map]
        exact List.sum_le_sum (fun s hs => hle s hs)
      · rintro ⟨s0, hs0, h21⟩
        unfold currentTotal
        rw [List.map_map]
        exact sum_map_lt_of_exists _ _ sessions (fun s hs => hle s hs)
          ⟨s0, hs0, scaleSession_load_lt _ _ _ s0 h21 ham hover⟩
  · exact ⟨by decide, by decide⟩

/-- C1 counterexample: the code truncates where the claim rounds, and the
claimed strict total decrease fails when the 20-unit floor raises small
loads.  Concretely: the boxing novice example yields loads [20, 23, 26], not
[20, 23, 27]; twenty-two sessions of load 1 with prior load 1 trigger scaling
(allowed 21 < total 22) yet the total grows from 22 to 440; and with prior
load 205 and loads [113, 114] the code produces [112, 112] where the
round-based formula of the claim gives allowed_max 226 and loads [113, 114]. -/
theorem C1_counterexample :
    (apply_weekly_load_guardrail (generate_boxing_sessions_template "Novice" 3 "") 50).map
        (List.map SessionPlan.load_units) ≠ some [20, 23, 27] ∧
    allowedMax 1 < currentTotal (List.replicate 22 (sampleSession "Mon" 1)) ∧
    currentTotal (List.replicate 22 (sampleSession "Mon" 1)) = 22 ∧
    (apply_weekly_load_guardrail (List.replicate 22 (sampleSession "Mon" 1)) 1).map
        (fun l => (l.map SessionPlan.load_units).sum) = some 440 ∧
    (apply_weekly_load_guardrail [sampleSession "Mon" 113, sampleSession "Tue" 114] 205).map
        (List.map SessionPlan.load_units) = some [112, 112] := by
  refine ⟨by decide, by decide, by decide, by decide, by decide⟩

/-- Closed instance of the amended C1 at the boxing novice example. -/
theorem C1_witness :
    0 < (50 : Int) ∧
    allowedMax 50 < currentTotal (generate_boxing_sessions_template "Novice" 3 "") ∧
    apply_weekly_load_guardrail (generate_boxing_sessions_template "Novice" 3 "") 50 =
      some ((generate_boxing_sessions_template "Novice" 3 "").map
        (scaleSession (allowedMax 50)
          (currentTotal (generate_boxing_sessions_template "Novice" 3 "")) 50)) :=
  ⟨by decide, by decide,
   (C1_guardrail_scaling (generate_boxing_sessions_template "Novice" 3 "") 50
     (by decide) (by decide)).1.1⟩

/-- C5 (amended): the guardrail is the identity when prior load ≤ 0; for
prior load > 0 it raises IndexError on the empty list (the `sessions[0]`
access), and on every non-empty list it returns a list of the same length in
the same order with every session's day, focus, intensity and duration
unchanged; when additionally the current total is within the allowed band,
the output is the input with only the first session's notes appended to
(loads untouched). -/
theorem C5_guardrail_frame (sessions : List SessionPlan) (lwl : Int) :
    (lwl ≤ 0 → apply_weekly_load_guardrail sessions lwl = some sessions) ∧
    (0 < lwl → sessions = [] → apply_weekly_load_guardrail sessions lwl = none) ∧
    (0 < lwl → ∀ s rest, sessions = s :: rest →
      ∃ out, apply_weekly_load_guardrail sessions lwl = some out ∧
        List.Forall₂ (fun a b => b.day = a.day ∧ b.focus = a.focus ∧
          b.intensity = a.intensity ∧ b.duration_min = a.duration_min) sessions out ∧
        (currentTotal sessions ≤ allowedMax lwl →
          out = { s with notes := s.notes ++ loadCheckNote (currentTotal sessions) lwl }
            :: rest)) := by
  refine ⟨?_, ?_, ?_⟩
  · intro h
    simp only [apply_weekly_load_guardrail, if_pos h]
  · intro hpos hemp
    subst hemp
    have hct : currentTotal ([] : List SessionPlan) ≤ allowedMax lwl := by
      have h2 : lwl + 20 ≤ allowedMax lwl := le_max_right _ _
      show (0 : Int) ≤ allowedMax lwl
      omega
    simp only [apply_weekly_load_guardrail]
    rw [if_neg (by omega), if_pos hct]
  · intro hpos s rest hcons
    subst hcons
    by_cases hct : currentTotal (s :: rest) ≤ allowedMax lwl
    · refine ⟨{ s with notes := s.notes ++ loadCheckNote (currentTotal (s :: rest)) lwl }
        :: rest, ?_, ?_, fun _ => rfl⟩
      · simp only [apply_weekly_load_guardrail]
        rw [if_neg (by omega), if_pos hct]
      · exact List.Forall₂.cons ⟨rfl, rfl, rfl, rfl⟩
          (List.forall₂_same.mpr (fun x _ => ⟨rfl, rfl, rfl, rfl⟩))
    · refine ⟨(s :: rest).map
        (scaleSession (allowedMax lwl) (currentTotal (s :: rest)) lwl), ?_, ?_,
        fun h => absurd h hct⟩
      · simp only [apply_weekly_load_guardrail]
        rw [if_neg (by omega), if_neg hct]
      · exact List.forall₂_map_right_iff.mpr
          (List.forall₂_same.mpr (fun x _ => ⟨rfl, rfl, rfl, rfl⟩))

/-- C5 counterexample: with a positive prior load the guardrail does not
return the empty list unchanged — the `sessions[0]` access raises. -/
theorem C5_counterexample : apply_weekly_load_guardrail [] 5 = none := by decide

/-- Closed instance of the amended C5. -/
theorem C5_witness :
    apply_weekly_load_guardrail [sampleSession "Mon" 30] 0 =
      some [sampleSession "Mon" 30] ∧
    apply_weekly_load_guardrail [] 3 = none :=
  ⟨(C5_guardrail_frame [sampleSession "Mon" 30] 0).1 (by decide),
   (C5_guardrail_frame [] 3).2.1 (by decide) rfl⟩

/-- C9 (amended): the guardrail arithmetic itself cannot fail, and the
function returns a result for every non-empty session list and every integer
prior load, and for every list (including the empty one) when the prior load
is not positive; on the empty list with a positive prior load, however, the
`sessions[0]` access in the within-band branch raises IndexError. -/
theorem C9_guardrail_total (sessions : List SessionPlan) (lwl : Int)
    (h : sessions ≠ [] ∨ lwl ≤ 0) :
    ∃ out, apply_weekly_load_guardrail sessions lwl = some out := by
  by_cases hp : lwl ≤ 0
  · exact ⟨sessions, by simp only [apply_weekly_load_guardrail, if_pos hp]⟩
  · rcases h with hne | hle
    · cases sessions with
      | nil => exact absurd rfl hne
      | cons s rest =>
        by_cases hct : currentTotal (s :: rest) ≤ allowedMax lwl
        · refine ⟨{ s with notes := s.notes ++ loadCheckNote (currentTotal (s :: rest)) lwl }
            :: rest, ?_⟩
          simp only [apply_weekly_load_guardrail]
          rw [if_neg hp, if_pos hct]
        · refine ⟨(s :: rest).map
            (scaleSession (allowedMax lwl) (currentTotal (s :: rest)) lwl), ?_⟩
          simp only [apply_weekly_load_guardrail]
          rw [if_neg hp, if_neg hct]
    · exact absurd hle hp

/-- C9 counterexample: the empty session list with prior load 1 hits the
`sessions[0]` access in the within-band branch and raises IndexError, so the
guardrail does have a failure mode. -/
theorem C9_counterexample : apply_weekly_load_guardrail [] 1 = none := by decide

/-- Closed instance of the amended C9. -/
theorem C9_witness :
    ∃ out, apply_weekly_load_guardrail [sampleSession "Tue" 40] 1 = some out :=
  C9_guardrail_total [sampleSession "Tue" 40] 1 (Or.inl (by decide))

/-! ### AI plan requester and orchestrator (claims C2, C3, C4) -/

/-- C2: the AI requester returns the failure signal (no plan) whenever the
external service is unconfigured and whenever its request/parse/sanitize
stage raised (the surrounding `try/except` converts every exception into
`None`, so nothing propagates to the caller); on failure the orchestrator
uses exactly the guardrailed template plan — boxing by case-insensitive sport
match, generic otherwise — with no retry of the AI path and no merging. -/
theorem C2_ai_failure_fallback :
    (∀ (outcome : Except Unit (List RawItem)) (sport level : String) (n : Nat)
        (lwl : Int) (contra : String),
      generate_sessions_ai false outcome sport level n lwl contra = none) ∧
    (∀ (available : Bool) (e : Unit) (sport level : String) (n : Nat)
        (lwl : Int) (contra : String),
      generate_sessions_ai available (Except.error e) sport level n lwl contra = none) ∧
    (∀ (available : Bool) (outcome : Except Unit (List RawItem))
        (sport level : String) (n : Nat) (lwl : Int) (contra : String),
      generate_sessions_ai available outcome sport level n lwl contra = none →
      generate_week_plan available outcome sport level n lwl contra =
        apply_weekly_load_guardrail
          (if pyLower sport = "boxing"
           then generate_boxing_sessions_template level n contra
           else generate_generic_sessions_template sport level n contra) lwl) := by
  refine ⟨?_, ?_, ?_⟩
  · intro outcome sport level n lwl contra
    simp [generate_sessions_ai]
  · intro available e sport level n lwl contra
    cases available with
    | false => simp [generate_sessions_ai]
    | true => simp [generate_sessions_ai]
  · intro available outcome sport level n lwl contra h
    simp only [generate_week_plan, h]

/-- Closed instance of C2: with the service unconfigured, the plan is the
guardrailed boxing template. -/
theorem C2_witness :
    generate_week_plan false (Except.ok []) "Boxing" "Novice" 3 0 "" =
      apply_weekly_load_guardrail
        (if pyLower "Boxing" = "boxing"
         then generate_boxing_sessions_template "Novice" 3 ""
         else generate_generic_sessions_template "Boxing" "Novice" 3 "") 0 :=
  C2_ai_failure_fallback.2.2 false (Except.ok []) "Boxing" "Novice" 3 0 ""
    (C2_ai_failure_fallback.1 (Except.ok []) "Boxing" "Novice" 3 0 "")

lemma resolveDay_finds (base : Nat) (used : List String) (hbase : base < 7)
    (hnd : used.Nodup) (hsub : ∀ x ∈ used, x ∈ DAYS_ORDER) (hlen : used.length < 7) :
    ∃ d, resolveDay base used = some d ∧ d ∉ used ∧ d ∈ DAYS_ORDER := by
  unfold resolveDay
  cases hfind : ((List.range 7).map
      (fun offset => DAYS_ORDER.getD ((base + offset) % DAYS_ORDER.length) "")).find?
      (fun candidate => !(decide (candidate ∈ used))) with
  | none =>
    exfalso
    have hall : ∀ c ∈ (List.range 7).map
        (fun offset => DAYS_ORDER.getD ((base + offset) % DAYS_ORDER.length) ""), c ∈ used := by
      intro c hcmem
      have := List.find?_eq_none.mp hfind c hcmem
      simpa using this
    have hsubdays : DAYS_ORDER ⊆ used := by
      intro d hd
      obtain ⟨i, hi, hdi⟩ := daysGetD_surj d hd
      have hi7 : i < 7 := List.mem_range.mp hi
      apply hall
      refine List.mem_map.mpr ⟨(7 + i - base) % 7, List.mem_range.mpr (by omega), ?_⟩
      have hmod : (base + (7 + i - base) % 7) % 7 = i := by omega
      rw [show DAYS_ORDER.length = 7 from rfl, hmod]
      exact hdi
    have hle7 : DAYS_ORDER.length ≤ used.length :=
      (List.subperm_of_subset days_nodup hsubdays).length_le
    rw [show DAYS_ORDER.length = 7 from rfl] at hle7
    omega
  | some d =>
    refine ⟨d, rfl, ?_, ?_⟩
    · have := List.find?_some hfind
      simpa using this
    · have hmem := List.mem_of_find?_eq_some hfind
      obtain ⟨o, ho, hcd⟩ := List.mem_map.mp hmem
      rw [← hcd, show DAYS_ORDER.length = 7 from rfl]
      exact daysGetD_mem _ (List.mem_range.mpr (Nat.mod_lt _ (by omega)))

lemma chooseDay_spec (rawDay : Option String) (used : List String)
    (hnd : used.Nodup) (hsub : ∀ x ∈ used, x ∈ DAYS_ORDER) (hlen : used.length < 7) :
    (chooseDay rawDay used).1 ∉ used ∧ (chooseDay rawDay used).1 ∈ DAYS_ORDER ∧
    (chooseDay rawDay used).2 = (chooseDay rawDay used).1 :: used := by
  have hday1 : (if rawDay.getD "Mon" ∈ DAYS_ORDER then rawDay.getD "Mon" else "Mon")
      ∈ DAYS_ORDER := by
    split
    · assumption
    · decide
  have hbase := dayIndex_lt_of_mem _ hday1
  obtain ⟨d, hres, hdnotin, hdmem⟩ := resolveDay_finds _ used hbase hnd hsub hlen
  simp only [chooseDay, hres]
  exact ⟨hdnotin, hdmem, by trivial⟩

lemma sanitizeItems_days (sport contra : String) (items : List RawItem) :
    ∀ (count : Nat) (used : List String),
      used.Nodup → (∀ x ∈ used, x ∈ DAYS_ORDER) → used.length + count ≤ 7 →
      ((sanitizeItems sport contra count items used).map SessionPlan.day).Nodup ∧
      (∀ s ∈ sanitizeItems sport contra count items used,
        s.day ∉ used ∧ s.day ∈ DAYS_ORDER) := by
  induction items with
  | nil =>
    intro count used _ _ _
    refine ⟨?_, ?_⟩ <;> cases count <;> simp [sanitizeItems]
  | cons item rest ih =>
    intro count used hnd hsub hlen
    cases count with
    | zero => refine ⟨?_, ?_⟩ <;> simp [sanitizeItems]
    | succ c =>
      obtain ⟨hnotin, hmem, hused2⟩ :=
        chooseDay_spec item.day used hnd hsub (by omega)
      have hred : sanitizeItems sport contra (c + 1) (item :: rest) used =
          { day := (chooseDay item.day used).1
            focus := item.focus.getD (sport ++ " session")
            intensity := normalizeIntensity (item.intensity.getD "Moderate")
            duration_min := max 20 (min 60 (item.duration_min.getD 30))
            load_units := intensityFactor (normalizeIntensity (item.intensity.getD "Moderate")) *
              max 20 (min 60 (item.duration_min.getD 30))
            notes := item.notes.getD "" ++ safetyPostscript contra } ::
          sanitizeItems sport contra c rest (chooseDay item.day used).2 := rfl
      rw [hred, hused2]
      have ihc := ih c ((chooseDay item.day used).1 :: used)
        (List.nodup_cons.mpr ⟨hnotin, hnd⟩)
        (by
          intro x hx
          rcases List.mem_cons.mp hx with rfl | hx2
          · exact hmem
          · exact hsub x hx2)
        (by simp only [List.length_cons]; omega)
      refine ⟨?_, ?_⟩
      · simp only [List.map_cons]
        refine List.nodup_cons.mpr ⟨?_, ihc.1⟩
        intro hcon
        obtain ⟨s, hs, hsday⟩ := List.mem_map.mp hcon
        have := (ihc.2 s hs).1
        rw [hsday] at this
        exact this (List.mem_cons_self _ _)
      · intro s hs
        rcases List.mem_cons.mp hs with rfl | hs2
        · exact ⟨hnotin, hmem⟩
        · have h2 := (ihc.2 s hs2).1
          refine ⟨fun hc => h2 (List.mem_cons_of_mem _ hc), (ihc.2 s hs2).2⟩

/-- C3: for a requested count at most 7 and an arbitrary raw response list
(duplicate or non-canonical day values included), the sanitized AI-path
output has pairwise-distinct day values; each item's day is defaulted to Mon
when non-canonical and advanced cyclically to the first day not used by an
earlier item (the `chooseDay`/`resolveDay` steps of the definition). -/
theorem C3_ai_day_uniqueness (available : Bool) (outcome : Except Unit (List RawItem))
    (sport level : String) (n : Nat) (lwl : Int) (contra : String)
    (hn : n ≤ 7) (out : List SessionPlan)
    (hout : generate_sessions_ai available outcome sport level n lwl contra = some out) :
    (out.map SessionPlan.day).Nodup := by
  cases available with
  | false => simp [generate_sessions_ai] at hout
  | true =>
    cases outcome with
    | error e => simp [generate_sessions_ai] at hout
    | ok items =>
      simp only [generate_sessions_ai, Bool.not_true, Bool.false_eq_true, if_false] at hout
      by_cases hemp : (sanitizeItems sport contra n items []).isEmpty
      · rw [if_pos hemp] at hout
        exact absurd hout (by simp)
      · rw [if_neg hemp] at hout
        have hout2 : out = sortByDay (sanitizeItems sport contra n items []) :=
          (Option.some.inj hout).symm
        rw [hout2]
        have hperm : (sortByDay (sanitizeItems sport contra n items [])).Perm
            (sanitizeItems sport contra n items []) := List.perm_insertionSort dayLE _
        refine ((hperm.map SessionPlan.day).nodup_iff).mpr ?_
        exact (sanitizeItems_days sport contra items n [] List.nodup_nil
          (by simp) (by simp only [List.length_nil]; omega)).1

/-- Closed instance of C3 on a response with duplicate "Tue" days and a
non-canonical day. -/
theorem C3_witness :
    3 ≤ 7 ∧
    ((sortByDay (sanitizeItems "Running" "" 3 sampleRawItems [])).map SessionPlan.day).Nodup :=
  ⟨by decide,
   C3_ai_day_uniqueness true (Except.ok sampleRawItems) "Running" "Novice" 3 0 ""
     (by decide) (sortByDay (sanitizeItems "Running" "" 3 sampleRawItems [])) rfl⟩

lemma normalizeIntensity_cases (raw : String) :
    normalizeIntensity raw = "Easy" ∨ normalizeIntensity raw = "Moderate" ∨
      normalizeIntensity raw = "Hard" := by
  simp only [normalizeIntensity]
  split
  · assumption
  · exact Or.inr (Or.inl rfl)

lemma sanitizeItems_getD (sport contra : String) (items : List RawItem) :
    ∀ (count : Nat) (used : List String) (i : Nat), i < count → i < items.length →
      ((sanitizeItems sport contra count items used).getD i default).duration_min =
          max 20 (min 60 ((items.getD i default).duration_min.getD 30)) ∧
      ((sanitizeItems sport contra count items used).getD i default).intensity =
          normalizeIntensity ((items.getD i default).intensity.getD "Moderate") ∧
      ((sanitizeItems sport contra count items used).getD i default).load_units =
          intensityFactor
              ((sanitizeItems sport contra count items used).getD i default).intensity *
            ((sanitizeItems sport contra count items used).getD i default).duration_min ∧
      ((sanitizeItems sport contra count items used).getD i default).focus =
          (items.getD i default).focus.getD (sport ++ " session") := by
  induction items with
  | nil =>
    intro count used i _ h2
    simp at h2
  | cons item rest ih =>
    intro count used i h1 h2
    cases count with
    | zero => omega
    | succ c =>
      cases i with
      | zero => exact ⟨rfl, rfl, rfl, rfl⟩
      | succ j =>
        have hred : sanitizeItems sport contra (c + 1) (item :: rest) used =
            { day := (chooseDay item.day used).1
              focus := item.focus.getD (sport ++ " session")
              intensity := normalizeIntensity (item.intensity.getD "Moderate")
              duration_min := max 20 (min 60 (item.duration_min.getD 30))
              load_units :=
                intensityFactor (normalizeIntensity (item.intensity.getD "Moderate")) *
                  max 20 (min 60 (item.duration_min.getD 30))
              notes := item.notes.getD "" ++ safetyPostscript contra } ::
            sanitizeItems sport contra c rest (chooseDay item.day used).2 := rfl
        rw [hred]
        simp only [List.getD_cons_succ]
        exact ih c (chooseDay item.day used).2 j (by omega) (by simpa using h2)

lemma sanitizeItems_ignores_raw_load (sport contra : String) (items : List RawItem) :
    ∀ (count : Nat) (used : List String) (v : Option Int),
      sanitizeItems sport contra count
          (items.map (fun it => { it with load_units := v })) used =
        sanitizeItems sport contra count items used := by
  induction items with
  | nil => intro count used v; cases count <;> rfl
  | cons item rest ih =>
    intro count used v
    cases count with
    | zero => rfl
    | succ c =>
      show _ :: sanitizeItems sport contra c (rest.map (fun it => { it with load_units := v }))
          (chooseDay item.day used).2 =
        _ :: sanitizeItems sport contra c rest (chooseDay item.day used).2
      rw [ih c (chooseDay item.day used).2 v]

/-- C4: every session the sanitizer produces from a raw item has the
duration coerced and clamped to [20, 60], the intensity title-cased and
defaulted to Moderate outside {Easy, Moderate, Hard}, and the load computed
as `factor(intensity) × duration_min` (factor Easy 1, Moderate 2, Hard 3);
the raw `load_units` value of the response is never read — replacing it
everywhere leaves the output unchanged. -/
theorem C4_ai_field_sanitization :
    (∀ (sport contra : String) (count : Nat) (items : List RawItem)
        (used : List String) (i : Nat), i < count → i < items.length →
      ((sanitizeItems sport contra count items used).getD i default).duration_min =
          max 20 (min 60 ((items.getD i default).duration_min.getD 30)) ∧
      ((sanitizeItems sport contra count items used).getD i default).intensity =
          normalizeIntensity ((items.getD i default).intensity.getD "Moderate") ∧
      (((sanitizeItems sport contra count items used).getD i default).intensity = "Easy" ∨
       ((sanitizeItems sport contra count items used).getD i default).intensity = "Moderate" ∨
       ((sanitizeItems sport contra count items used).getD i default).intensity = "Hard") ∧
      ((sanitizeItems sport contra count items used).getD i default).load_units =
          intensityFactor
              ((sanitizeItems sport contra count items used).getD i default).intensity *
            ((sanitizeItems sport contra count items used).getD i default).duration_min) ∧
    (∀ (sport contra : String) (count : Nat) (items : List RawItem)
        (used : List String) (v : Option Int),
      sanitizeItems sport contra count
          (items.map (fun it => { it with load_units := v })) used =
        sanitizeItems sport contra count items used) := by
  constructor
  · intro sport contra count items used i h1 h2
    obtain ⟨hdur, hint, hload, _⟩ := sanitizeItems_getD sport contra items count used i h1 h2
    refine ⟨hdur, hint, ?_, hload⟩
    rw [hint]
    exact normalizeIntensity_cases _
  · intro sport contra count items used v
    exact sanitizeItems_ignores_raw_load sport contra items count used v

/-- Closed instance of C4: the first sample raw item carries duration 999 and
intensity "hARD"; the sanitized session has duration 60, intensity "Hard"
and load 180. -/
theorem C4_witness :
    ((sanitizeItems "Running" "" 3 sampleRawItems []).getD 0 default).duration_min =
        max 20 (min 60 ((sampleRawItems.getD 0 default).duration_min.getD 30)) ∧
    ((sanitizeItems "Running" "" 3 sampleRawItems []).getD 0 default).duration_min = 60 ∧
    ((sanitizeItems "Running" "" 3 sampleRawItems []).getD 0 default).intensity = "Hard" ∧
    ((sanitizeItems "Running" "" 3 sampleRawItems []).getD 0 default).load_units = 180 :=
  ⟨(C4_ai_field_sanitization.1 "Running" "" 3 sampleRawItems [] 0
      (by decide) (by decide)).1,
   by decide, by decide, by decide⟩

/-! ### Aliased template padding under the guardrail (claim C10) -/

lemma updateStore_same (store : Nat → SessionPlan) (r : Nat) (v : SessionPlan) :
    updateStore store r v r = v := by
  simp [updateStore]

lemma updateStore_other (store : Nat → SessionPlan) (r x : Nat) (v : SessionPlan)
    (h : x ≠ r) : updateStore store r v x = store x := by
  simp [updateStore, h]

/-- The scaling loop applies the step once per occurrence of a reference. -/
lemma guardrail_fold_count (step : SessionPlan → SessionPlan) :
    ∀ (refs : List Nat) (store : Nat → SessionPlan) (r : Nat),
      (refs.foldl (fun st x => updateStore st x (step (st x))) store) r =
        step^[refs.count r] (store r)
  | [], store, r => by simp
  | a :: t, store, r => by
    simp only [List.foldl_cons]
    rw [guardrail_fold_count step t (updateStore store a (step (store a))) r]
    by_cases h : r = a
    · subst h
      rw [updateStore_same, List.count_cons_self, Function.iterate_succ_apply]
    · rw [updateStore_other store a r (step (store a)) h, List.count_cons_of_ne h]

lemma scale_iterate_notes (am ct lwl : Int) (s : SessionPlan) :
    ∀ k, ((scaleSession am ct lwl)^[k] s).notes =
      notesAfter (guardNote lwl am) s.notes k
  | 0 => rfl
  | k + 1 => by
    rw [Function.iterate_succ_apply']
    show ((scaleSession am ct lwl)^[k] s).notes ++ guardNote lwl am =
      notesAfter (guardNote lwl am) s.notes k ++ guardNote lwl am
    rw [scale_iterate_notes am ct lwl s k]

lemma scale_iterate_load_le (am ct lwl : Int) (ham : 0 < am) (hct : am < ct) :
    ∀ (k : Nat) (t : SessionPlan), 20 ≤ t.load_units →
      ((scaleSession am ct lwl)^[k] t).load_units ≤ t.load_units ∧
      20 ≤ ((scaleSession am ct lwl)^[k] t).load_units
  | 0, _, h => ⟨le_refl _, h⟩
  | k + 1, t, h => by
    rw [Function.iterate_succ_apply]
    obtain ⟨h1, h2⟩ := scale_iterate_load_le am ct lwl ham hct k
      (scaleSession am ct lwl t) (scaleSession_load_ge am ct lwl t)
    exact ⟨le_trans h1 (scaleSession_load_le am ct lwl t h ham hct), h2⟩

lemma scale_iterate_load_lt (am ct lwl : Int) (ham : 0 < am) (hct : am < ct)
    (k : Nat) (t : SessionPlan) (h21 : 21 ≤ t.load_units) :
    ((scaleSession am ct lwl)^[k + 1] t).load_units < t.load_units := by
  rw [Function.iterate_succ_apply]
  exact lt_of_le_of_lt
    (scale_iterate_load_le am ct lwl ham hct k (scaleSession am ct lwl t)
      (scaleSession_load_ge am ct lwl t)).1
    (scaleSession_load_lt am ct lwl t h21 ham hct)

lemma boxingStore_entries (level contra : String) :
    ∃ t0 t1 t2 : SessionPlan,
      boxingStore level contra 0 = t0 ∧ boxingStore level contra 1 = t1 ∧
      boxingStore level contra 2 = t2 ∧
      dayLE t0 t0 ∧ dayLE t0 t1 ∧ dayLE t1 t2 ∧ ¬ dayLE t1 t0 ∧ ¬ dayLE t2 t0 := by
  obtain ⟨t0, t1, t2, hcat, h00, h01, h12, h10, h20⟩ := boxingCatalog_entries level contra
  refine ⟨t0, t1, t2, ?_, ?_, ?_, h00, h01, h12, h10, h20⟩ <;>
    simp [boxingStore, hcat]

lemma boxingPlanRefs_closed (level contra : String) (n : Nat) (hn : 3 < n) :
    boxingPlanRefs level contra n = List.replicate (n - 2) 0 ++ [1, 2] := by
  obtain ⟨t0, t1, t2, he0, he1, he2, h00, h01, h12, h10, h20⟩ :=
    boxingStore_entries level contra
  have hrefs : boxingRefs n = 0 :: 1 :: 2 :: List.replicate (n - 3) 0 := by
    unfold boxingRefs
    rw [if_neg (by omega)]
    rfl
  unfold boxingPlanRefs sortRefsByDay
  rw [hrefs]
  have hpad := insertionSort_pad (refDayLE (boxingStore level contra)) 0 1 2 (n - 3)
    (show dayLE (boxingStore level contra 0) (boxingStore level contra 0) by
      rw [he0]; exact h00)
    (show dayLE (boxingStore level contra 0) (boxingStore level contra 1) by
      rw [he0, he1]; exact h01)
    (show dayLE (boxingStore level contra 1) (boxingStore level contra 2) by
      rw [he1, he2]; exact h12)
    (show ¬ dayLE (boxingStore level contra 1) (boxingStore level contra 0) by
      rw [he0, he1]; exact h10)
    (show ¬ dayLE (boxingStore level contra 2) (boxingStore level contra 0) by
      rw [he0, he2]; exact h20)
  rw [hpad, show n - 3 + 1 = n - 2 from by omega]

lemma map_of_closed_refs {g : Nat → SessionPlan} {refs : List Nat} {k : Nat}
    (h : refs = List.replicate k 0 ++ [1, 2]) :
    refs.map g = List.replicate k (g 0) ++ [g 1, g 2] := by
  rw [h]
  simp [List.map_append, List.map_replicate]

/-- C10 (amended): for count > 3 the padded boxing references all denote
catalog entry 0, so after the day sort the plan is `n-2` references to the
shared entry-0 record followed by entries 1 and 2; when the guardrail scales,
the loop reads and writes through each reference in order, so the shared
record is rescaled and annotated once per occurrence: its final value is the
`(n-2)`-fold iterate of the scaling step, its notes carry `n-2` copies of the
guardrail note, every occurrence in the final plan shows this one compounded
record, and its load is at most the single-application value — strictly below
it when the single application stays above the 20-unit floor (at the floor
the clamp makes further applications no-ops, so the reduction need not be
strict). -/
theorem C10_aliased_padding_compounding (level contra : String) (n : Nat) (lwl : Int)
    (hn : 3 < n) (hpos : 0 < lwl)
    (hover : allowedMax lwl <
      currentTotalRefs (boxingStore level contra) (boxingPlanRefs level contra n)) :
    boxingPlanRefs level contra n = List.replicate (n - 2) 0 ++ [1, 2] ∧
    ∃ store2,
      apply_weekly_load_guardrail_refs (boxingStore level contra)
          (boxingPlanRefs level contra n) lwl =
        some (store2, boxingPlanRefs level contra n) ∧
      store2 0 = (scaleSession (allowedMax lwl)
          (currentTotalRefs (boxingStore level contra) (boxingPlanRefs level contra n))
          lwl)^[n - 2] (boxingStore level contra 0) ∧
      store2 1 = scaleSession (allowedMax lwl)
          (currentTotalRefs (boxingStore level contra) (boxingPlanRefs level contra n))
          lwl (boxingStore level contra 1) ∧
      store2 2 = scaleSession (allowedMax lwl)
          (currentTotalRefs (boxingStore level contra) (boxingPlanRefs level contra n))
          lwl (boxingStore level contra 2) ∧
      (boxingPlanRefs level contra n).map store2 =
        List.replicate (n - 2) (store2 0) ++ [store2 1, store2 2] ∧
      (store2 0).notes = notesAfter (guardNote lwl (allowedMax lwl))
          (boxingStore level contra 0).notes (n - 2) ∧
      (store2 0).load_units ≤ (scaleSession (allowedMax lwl)
          (currentTotalRefs (boxingStore level contra) (boxingPlanRefs level contra n))
          lwl (boxingStore level contra 0)).load_units ∧
      (21 ≤ (scaleSession (allowedMax lwl)
          (currentTotalRefs (boxingStore level contra) (boxingPlanRefs level contra n))
          lwl (boxingStore level contra 0)).load_units →
        (store2 0).load_units < (scaleSession (allowedMax lwl)
          (currentTotalRefs (boxingStore level contra) (boxingPlanRefs level contra n))
          lwl (boxingStore level contra 0)).load_units) := by
  have hrefs := boxingPlanRefs_closed level contra n hn
  have ham := allowedMax_pos lwl hpos
  have hcount0 : (boxingPlanRefs level contra n).count 0 = n - 2 := by
    rw [hrefs]
    simp [List.count_append, List.count_replicate]
  have hcount1 : (boxingPlanRefs level contra n).count 1 = 1 := by
    rw [hrefs]
    simp [List.count_append, List.count_replicate]
  have hcount2 : (boxingPlanRefs level contra n).count 2 = 1 := by
    rw [hrefs]
    simp [List.count_append, List.count_replicate]
  have hfold := guardrail_fold_count
    (scaleSession (allowedMax lwl)
      (currentTotalRefs (boxingStore level contra) (boxingPlanRefs level contra n)) lwl)
    (boxingPlanRefs level contra n) (boxingStore level contra)
  refine ⟨hrefs, (boxingPlanRefs level contra n).foldl
    (fun st r => updateStore st r (scaleSession (allowedMax lwl)
      (currentTotalRefs (boxingStore level contra) (boxingPlanRefs level contra n)) lwl
      (st r))) (boxingStore level contra), ?_, ?_, ?_, ?_, ?_, ?_, ?_, ?_⟩
  · simp only [apply_weekly_load_guardrail_refs]
    rw [if_neg (by omega), if_neg (by omega)]
  · rw [hfold 0, hcount0]
  · rw [hfold 1, hcount1, Function.iterate_one]
  · rw [hfold 2, hcount2, Function.iterate_one]
  · exact map_of_closed_refs hrefs
  · rw [hfold 0, hcount0]
    exact scale_iterate_notes _ _ _ _ _
  · rw [hfold 0, hcount0, show n - 2 = (n - 3) + 1 from by omega,
      Function.iterate_succ_apply]
    exact (scale_iterate_load_le _ _ _ ham hover (n - 3) _
      (scaleSession_load_ge _ _ _ _)).1
  · intro h21
    rw [hfold 0, hcount0, show n - 2 = ((n - 4) + 1) + 1 from by omega,
      Function.iterate_succ_apply]
    exact scale_iterate_load_lt _ _ _ ham hover (n - 4) _ h21

/-- C10 counterexample to the strict parenthetical: at novice level, count 4
and prior load 50 the scaling clamps entry 0 to the 20-unit floor, so the
twice-applied (compounded) value equals the once-applied value — the
compounding does not always fall strictly below one application — and the
final shared record indeed shows load 20. -/
theorem C10_counterexample :
    ((scaleSession (allowedMax 50)
        (currentTotalRefs (boxingStore "Novice" "") (boxingPlanRefs "Novice" "" 4)) 50)^[2]
        (boxingStore "Novice" "" 0)).load_units =
      (scaleSession (allowedMax 50)
        (currentTotalRefs (boxingStore "Novice" "") (boxingPlanRefs "Novice" "" 4)) 50
        (boxingStore "Novice" "" 0)).load_units ∧
    (apply_weekly_load_guardrail_refs (boxingStore "Novice" "")
        (boxingPlanRefs "Novice" "" 4) 50).map (fun p => (p.1 0).load_units) =
      some 20 :=
  ⟨by decide, by decide⟩

/-- Closed instance of the amended C10 at novice level, count 4, prior load
100 (no clamping, so the compounding is strict: 30 → 26 → 23). -/
theorem C10_witness :
    boxingPlanRefs "Novice" "" 4 = List.replicate 2 0 ++ [1, 2] ∧
    (apply_weekly_load_guardrail_refs (boxingStore "Novice" "")
        (boxingPlanRefs "Novice" "" 4) 100).map (fun p => (p.1 0).load_units) =
      some 23 ∧
    (scaleSession (allowedMax 100)
        (currentTotalRefs (boxingStore "Novice" "") (boxingPlanRefs "Novice" "" 4)) 100
        (boxingStore "Novice" "" 0)).load_units = 26 :=
  ⟨(C10_aliased_padding_compounding "Novice" "" 4 100 (by decide) (by decide)
      (by decide)).1,
   by decide, by decide⟩

/-- Closed instance of C7 at novice level and count 2. -/
theorem C7_witness :
    generate_boxing_sessions_template "Novice" 2 "" = (boxingCatalog "Novice" "").take 2 ∧
    (generate_boxing_sessions_template "Novice" 2 "").length = 2 ∧
    List.Sorted dayLE (generate_boxing_sessions_template "Novice" 2 "") :=
  C7_boxing_template_prefix "Novice" 2 "" (by decide)
